import Mathlib

/-!
Verification of the SCFS cluster-compression engine, a shallow embedding of
`fs/scfs/scfs.c` (Samsung compressed stackable filesystem).  Pure decision
logic is translated to Lean functions; kernel collaborators (vfs_read,
vfs_write, statfs, notify_change, crypto codecs, file open) are modelled as
explicit result parameters or oracles, and stateful code is modelled by
explicit state records.  Linux errno values are embedded as the negative
integers the kernel returns.
-/

namespace Scfs

/-- Kernel `-EINVAL`. -/
def EINVAL : Int := -22

/-- Kernel `-EIO` (named to avoid clashing notations). -/
def EIOERR : Int := -5

/-- Kernel `-ENOSPC`. -/
def ENOSPC : Int := -28

/-- Kernel `-ENOMEM`. -/
def ENOMEM : Int := -12

/-- Kernel `-ERANGE`. -/
def ERANGE : Int := -34

/-- `struct scfs_cinfo` — one cluster descriptor: byte offset into the lower
file and compressed-or-raw byte length. -/
structure Scfs_cinfo where
  offset : Nat
  size : Nat
deriving DecidableEq

/-- `struct cinfo_entry` — a pending-list node: a descriptor tagged with its
absolute cluster index (`current_cluster_idx`). -/
structure Cinfo_entry where
  current_cluster_idx : Nat
  cinfo : Scfs_cinfo
deriving DecidableEq

/-! ## get_cluster_info, pending-list branch (scfs.c lines 181-215)

When `cluster_idx * sizeof(struct scfs_cinfo) >= sii->cinfo_array_size` the
resolver takes the `else` branch: it locks `cinfo_list_mutex`, errors with
`-EINVAL` on an empty list, then walks the list; an entry whose index is
*below* `cluster_idx` yields `-EINVAL`, an entry whose index equals
`cluster_idx` is the match, and exhausting the list yields `-EIO`. -/

/-- The `list_for_each_safe` scan body of `get_cluster_info` (scfs.c
lines 190-203): first test is `current_cluster_idx < cluster_idx` returning
`-EINVAL`, second is equality returning the match; falling off the loop
returns `-EIO` (scfs.c line 208). -/
def scan_cinfo_list (cluster_idx : Nat) : List Cinfo_entry → Except Int Scfs_cinfo
  | [] => .error EIOERR
  | e :: rest =>
    if e.current_cluster_idx < cluster_idx then .error EINVAL
    else if e.current_cluster_idx = cluster_idx then .ok e.cinfo
    else scan_cinfo_list cluster_idx rest

/-- The pending-list branch of `get_cluster_info` (scfs.c lines 183-209):
`list_empty` check returning `-EINVAL`, then the scan.  On a match the
caller's descriptor receives the entry's offset and size (scfs.c
lines 210-212), modelled by returning the matched `Scfs_cinfo`. -/
def get_cluster_info_pending (cluster_idx : Nat) (cinfo_list : List Cinfo_entry) :
    Except Int Scfs_cinfo :=
  if cinfo_list.isEmpty then .error EINVAL
  else scan_cinfo_list cluster_idx cinfo_list

/-- Second definition, written from the specification's words, for comparison
with the one embedded from the source: the spec says the scan errors when the
scanned entry's index *exceeds* the requested `cluster_idx` before a match. -/
def scan_cinfo_list_specWords (cluster_idx : Nat) : List Cinfo_entry → Except Int Scfs_cinfo
  | [] => .error EIOERR
  | e :: rest =>
    if cluster_idx < e.current_cluster_idx then .error EINVAL
    else if e.current_cluster_idx = cluster_idx then .ok e.cinfo
    else scan_cinfo_list_specWords cluster_idx rest

/-- Spec-words version of the whole pending branch. -/
def get_cluster_info_pending_specWords (cluster_idx : Nat) (cinfo_list : List Cinfo_entry) :
    Except Int Scfs_cinfo :=
  if cinfo_list.isEmpty then .error EINVAL
  else scan_cinfo_list_specWords cluster_idx cinfo_list

/-- C1 counterexample: with pending entries at indices 0 and 1, resolving
cluster index 1 returns `-EINVAL` in the code (the scan's first comparison is
`current_cluster_idx < cluster_idx`, which fires on the entry with index 0),
whereas the claim's scan ("a scanned entry's index exceeds the requested
cluster_idx" is the error condition) would walk past index 0 and succeed with
the matching descriptor. -/
theorem get_cluster_info_pending_claim_cex :
    get_cluster_info_pending 1 [⟨0, ⟨0, 4096⟩⟩, ⟨1, ⟨4096, 1200⟩⟩] = .error EINVAL ∧
    get_cluster_info_pending_specWords 1 [⟨0, ⟨0, 4096⟩⟩, ⟨1, ⟨4096, 1200⟩⟩] =
      .ok ⟨4096, 1200⟩ := by
  exact ⟨rfl, rfl⟩

/-- Helper: the scan stops at the first entry whose index is at most
`cluster_idx`; entries with larger indices are skipped. -/
theorem scan_cinfo_list_eq_find (cluster_idx : Nat) (l : List Cinfo_entry) :
    scan_cinfo_list cluster_idx l =
      match l.find? (fun e => decide (e.current_cluster_idx ≤ cluster_idx)) with
      | none => .error EIOERR
      | some e =>
        if e.current_cluster_idx = cluster_idx then .ok e.cinfo else .error EINVAL := by
  induction l with
  | nil => rfl
  | cons e rest ih =>
    rcases Nat.lt_trichotomy e.current_cluster_idx cluster_idx with h | h | h
    · have hle : e.current_cluster_idx ≤ cluster_idx := Nat.le_of_lt h
      have hne : e.current_cluster_idx ≠ cluster_idx := Nat.ne_of_lt h
      simp [scan_cinfo_list, List.find?, hle, h, hne]
    · simp [scan_cinfo_list, List.find?, Nat.le_of_eq h, h, Nat.lt_irrefl]
    · have hnle : ¬ e.current_cluster_idx ≤ cluster_idx := Nat.not_le_of_lt h
      have hnlt : ¬ e.current_cluster_idx < cluster_idx := by omega
      have hne : e.current_cluster_idx ≠ cluster_idx := by omega
      simp [scan_cinfo_list, List.find?, hnle, hnlt, hne, ih]

/-- C1 (amended): past the committed array, `get_cluster_info` scans the
pending list in order; an empty list yields `-EINVAL`; entries whose index
exceeds the requested `cluster_idx` are skipped; at the first entry whose
index is at most `cluster_idx`, a match returns that entry's offset and size
with success while an index strictly *below* `cluster_idx` returns `-EINVAL`;
a list exhausted with every entry's index above `cluster_idx` returns
`-EIO`. -/
theorem get_cluster_info_pending_amended (cluster_idx : Nat) (l : List Cinfo_entry) :
    get_cluster_info_pending cluster_idx l =
      if l.isEmpty then .error EINVAL
      else
        match l.find? (fun e => decide (e.current_cluster_idx ≤ cluster_idx)) with
        | none => .error EIOERR
        | some e =>
          if e.current_cluster_idx = cluster_idx then .ok e.cinfo else .error EINVAL := by
  by_cases h : l.isEmpty
  · simp [get_cluster_info_pending, h]
  · simp only [get_cluster_info_pending, h, if_false]
    exact scan_cinfo_list_eq_find cluster_idx l

/-! ## get_cluster_info, mutex discipline (scfs.c lines 183-209)

A second rendering of the same pending-list branch tracking the operations on
`sii->cinfo_list_mutex` as an event trace.  The source locks the mutex on
entry (line 184), unlocks it on the match path (line 200) and on the
exhausted-scan path (line 204), but the `return -EINVAL` statements for the
empty-list case (line 188) and for the index-below case (line 195) leave the
function without unlocking. -/

/-- Mutex events performed by `get_cluster_info`'s pending branch. -/
inductive LockEv
  | lock
  | unlock
deriving DecidableEq

/-- Scan loop of `get_cluster_info` with mutex events: the index-below error
path returns with no unlock event; the match and exhausted paths unlock. -/
def scan_cinfo_list_locked (cluster_idx : Nat) :
    List Cinfo_entry → Except Int Scfs_cinfo × List LockEv
  | [] => (.error EIOERR, [.unlock])
  | e :: rest =>
    if e.current_cluster_idx < cluster_idx then (.error EINVAL, [])
    else if e.current_cluster_idx = cluster_idx then (.ok e.cinfo, [.unlock])
    else scan_cinfo_list_locked cluster_idx rest

/-- Pending branch of `get_cluster_info` with its mutex-event trace: the
mutex is locked first; the empty-list error returns without unlocking. -/
def get_cluster_info_pending_locked (cluster_idx : Nat) (cinfo_list : List Cinfo_entry) :
    Except Int Scfs_cinfo × List LockEv :=
  if cinfo_list.isEmpty then (.error EINVAL, [.lock])
  else
    let r := scan_cinfo_list_locked cluster_idx cinfo_list
    (r.1, .lock :: r.2)

/-- A balanced trace performs as many unlocks as locks. -/
def lockBalanced (t : List LockEv) : Prop :=
  t.count .lock = t.count .unlock

instance (t : List LockEv) : Decidable (lockBalanced t) := by
  unfold lockBalanced
  infer_instance

/-- C10: the empty-pending-list error path of `get_cluster_info` returns
`-EINVAL` while still holding `cinfo_list_mutex` (one lock event, no unlock
event), so lock acquire/release are not balanced on every return path; the
index-below error path is unbalanced in the same way. -/
theorem get_cluster_info_mutex_unbalanced :
    ¬ lockBalanced (get_cluster_info_pending_locked 0 []).2 ∧
    ¬ lockBalanced (get_cluster_info_pending_locked 1 [⟨0, ⟨0, 4096⟩⟩]).2 ∧
    lockBalanced (get_cluster_info_pending_locked 0 [⟨0, ⟨0, 4096⟩⟩]).2 := by
  exact ⟨by decide, by decide, by decide⟩

/-! ## scfs_write_meta: finalizing the staged last cluster (scfs.c lines 831-870)

On commit, a staged last cluster (`cluster_buffer.original_size > 0`) is
first compressed; if `scfs_compress` fails the code does `goto free_out`,
returning the error (despite logging "So, write uncompress data").  On
success the pad is computed from the compressed length, and the compressed
form is kept only when `size < original_size * comp_threshold / 100`;
otherwise the descriptor size is reset to the staged byte count and the raw
buffer is written, leaving `sii->compressed` untouched. -/

/-- `ALIGN(x, a)` for the kernel macro (a is a power of two in the source;
the arithmetic form is the same). -/
def ALIGN (x a : Nat) : Nat := ((x + a - 1) / a) * a

/-- Which scratch buffer is written to the lower file for the last cluster. -/
inductive StoreSource
  | compressedBuf
  | rawBuf
deriving DecidableEq

/-- Outcome of finalizing the staged last cluster. -/
structure LastClusterResult where
  source : StoreSource
  size : Nat
  pad : Nat
  sii_compressed : Bool
deriving DecidableEq

/-- The last-cluster finalization step of `scfs_write_meta` (scfs.c
lines 832-859).  `comp_result` is the outcome of `scfs_compress` (the
compressed length written into `last->cinfo.size` on success);
`was_compressed` is the prior value of `sii->compressed`; `align_byte` is
`SCFS_CLUSTER_ALIGN_BYTE` from the (not provided) header. -/
def scfs_write_meta_last_cluster (original_size comp_threshold align_byte : Nat)
    (comp_result : Except Int Nat) (was_compressed : Bool) :
    Except Int LastClusterResult :=
  match comp_result with
  | .error e => .error e
  | .ok comp_len =>
    let p := ALIGN comp_len align_byte - comp_len
    if comp_len < original_size * comp_threshold / 100 then
      .ok ⟨.compressedBuf, comp_len, p, true⟩
    else
      .ok ⟨.rawBuf, original_size, p, was_compressed⟩

/-- C2: the compressed form of the staged last cluster is kept if and only if
the compressed length is strictly below `original_size * comp_threshold / 100`
(truncating integer division); at exact equality the raw buffer is stored,
the descriptor size is reset to the staged byte count, and the file's
`compressed` flag is left as it was — it is set exactly on the
strictly-smaller branch. -/
theorem scfs_write_meta_threshold_strict (original_size comp_threshold align_byte
    comp_len : Nat) (was_compressed : Bool) (r : LastClusterResult)
    (h : scfs_write_meta_last_cluster original_size comp_threshold align_byte
      (.ok comp_len) was_compressed = .ok r) :
    (r.source = .compressedBuf ↔ comp_len < original_size * comp_threshold / 100) ∧
    (r.sii_compressed = true ↔
      (comp_len < original_size * comp_threshold / 100 ∨ was_compressed = true)) ∧
    (comp_len = original_size * comp_threshold / 100 →
      r.source = .rawBuf ∧ r.size = original_size ∧ r.sii_compressed = was_compressed) := by
  by_cases hlt : comp_len < original_size * comp_threshold / 100
  · simp only [scfs_write_meta_last_cluster, hlt, if_true, Except.ok.injEq] at h
    subst h
    refine ⟨by simp [hlt], by simp [hlt], fun he => absurd he (by omega)⟩
  · simp only [scfs_write_meta_last_cluster, hlt, if_false, Except.ok.injEq] at h
    subst h
    constructor
    · constructor
      · intro hsrc
        exact absurd hsrc (by simp)
      · intro hc
        exact absurd hc hlt
    · constructor
      · constructor
        · intro hw
          exact Or.inr hw
        · rintro (hc | hw)
          · exact absurd hc hlt
          · exact hw
      · intro _
        exact ⟨rfl, rfl, rfl⟩

/-- C2 witness: staged 200 bytes, threshold 50%, compressed length exactly
`200 * 50 / 100 = 100` — the cluster is stored raw with size 200 and the
`compressed` flag stays false. -/
theorem scfs_write_meta_threshold_strict_witness :
    ((⟨.rawBuf, 200, 12, false⟩ : LastClusterResult).source = .compressedBuf ↔
      100 < 200 * 50 / 100) ∧
    ((⟨.rawBuf, 200, 12, false⟩ : LastClusterResult).sii_compressed = true ↔
      (100 < 200 * 50 / 100 ∨ false = true)) ∧
    (100 = 200 * 50 / 100 →
      (⟨.rawBuf, 200, 12, false⟩ : LastClusterResult).source = .rawBuf ∧
      (⟨.rawBuf, 200, 12, false⟩ : LastClusterResult).size = 200 ∧
      (⟨.rawBuf, 200, 12, false⟩ : LastClusterResult).sii_compressed = false) :=
  scfs_write_meta_threshold_strict 200 50 16 100 false ⟨.rawBuf, 200, 12, false⟩ (by rfl)

/-- C3: when `scfs_compress` fails during last-cluster finalization, the code
jumps to `free_out` and `scfs_write_meta` returns the codec error — it does
not fall back to the raw-store branch, contradicting both the spec and the
function's own log message "Compression failed. So, write uncompress
data.". Evaluated at a staged 1808-byte cluster whose compression fails
with `-EIO`. -/
theorem scfs_write_meta_compress_failure_aborts :
    scfs_write_meta_last_cluster 1808 100 16 (.error EIOERR) false = .error EIOERR ∧
    (∀ r : LastClusterResult,
      scfs_write_meta_last_cluster 1808 100 16 (.error EIOERR) false ≠ .ok r) := by
  exact ⟨rfl, fun r h => by simp [scfs_write_meta_last_cluster] at h⟩

/-! ## scfs_compress / scfs_decompress (scfs.c lines 563-603 and 623-674)

Both functions save `size_t tmp_len = *actual` on entry.  The LZO branch
passes `&tmp_len` to the LZO primitive, so the final `*actual = tmp_len`
publishes the length the codec produced.  The default (crypto) branch passes
`actual` itself to `crypto_comp_compress`/`crypto_comp_decompress` — and the
final `*actual = tmp_len` then overwrites the codec's output length with the
caller's original input value.  Codec failure is mapped to `-EIO` in every
branch.  The codec primitive is modelled by its observable behavior: its
return code and the length it wrote into its out-length parameter (the
lazily allocated LZO work memory and crypto handles are modelled as already
available, which every branch relevant to the claim assumes). -/

/-- `enum comp_type` (TOTAL_TYPES = 4). -/
inductive Comp_type
  | LZO
  | BZIP2
  | ZLIB
  | FASTLZO
deriving DecidableEq

/-- Observable behavior of the underlying codec primitive on one call:
its return code and the length it wrote into its out-length parameter. -/
structure CodecBehavior where
  ret : Int
  out_len : Nat
deriving DecidableEq

/-- `scfs_compress` (scfs.c lines 623-674): returns the function's return
value paired with the final contents of `*actual`.  `actual` is the caller's
input value (the full cluster size). -/
def scfs_compress (algo : Comp_type) (codec : CodecBehavior) (actual : Nat) : Int × Nat :=
  match algo with
  | .LZO => ((if codec.ret = 0 then 0 else EIOERR), codec.out_len)
  | _ => ((if codec.ret = 0 then 0 else EIOERR), actual)

/-- `scfs_decompress` (scfs.c lines 563-603): same shape — the LZO branch
publishes the codec's decompressed length, the crypto branch publishes the
caller's input value because `*actual = tmp_len` runs after
`crypto_comp_decompress` wrote into `actual`. -/
def scfs_decompress (algo : Comp_type) (codec : CodecBehavior) (actual : Nat) : Int × Nat :=
  match algo with
  | .LZO => ((if codec.ret = 0 then 0 else EIOERR), codec.out_len)
  | _ => ((if codec.ret = 0 then 0 else EIOERR), actual)

/-- C4: for the non-LZO algorithms the trailing `*actual = tmp_len`
assignment restores the caller's input value, discarding the length the
crypto codec produced — at ZLIB with the codec producing 100 (compress) or
1808 (decompress) bytes and `*actual` entering as 4096, both functions
succeed yet report 4096.  The LZO branch does publish the produced length,
and codec failure is mapped to `-EIO`. -/
theorem scfs_codec_actual_clobbered :
    scfs_compress .ZLIB ⟨0, 100⟩ 4096 = (0, 4096) ∧
    scfs_decompress .ZLIB ⟨0, 1808⟩ 4096 = (0, 4096) ∧
    (100 : Nat) ≠ 4096 ∧
    scfs_compress .LZO ⟨0, 100⟩ 4096 = (0, 100) ∧
    scfs_decompress .LZO ⟨0, 1808⟩ 4096 = (0, 1808) ∧
    (scfs_decompress .ZLIB ⟨-22, 0⟩ 4096).1 = EIOERR ∧
    (scfs_decompress .LZO ⟨1, 0⟩ 4096).1 = EIOERR := by
  refine ⟨rfl, rfl, by decide, rfl, rfl, rfl, rfl⟩

/-! ## scfs_lower_read / scfs_lower_write (scfs.c lines 1136-1219)

Both wrap `vfs_read`/`vfs_write` in a `while (progress < count)` loop.  A
negative result equal to `-EINTR` or `-EAGAIN` hits `continue`, restarting
the loop *without* touching the `retry` counter; any other negative result
returns immediately; a non-negative result adds to the progress counter and
then `if (++retry > SCFS_IO_MAX_RETRY) return -EIO`.  The sequence of
`vfs_read`/`vfs_write` results is modelled as an oracle list; `none` means
the loop was still running when the oracle was exhausted.  `max_retry`
stands for `SCFS_IO_MAX_RETRY` (defined in the header, which is not part of
the provided source; every statement below holds for any value). -/

/-- One `vfs_read`/`vfs_write` outcome. -/
inductive VfsResult
  | ok (n : Nat)
  | transient
  | fail (e : Int)
deriving DecidableEq

/-- The retry loop of `scfs_lower_read` (scfs.c lines 1164-1185), running
from progress `read` and counter `retry` against the oracle list. -/
def scfs_lower_read_loop (max_retry count : Nat) :
    Nat → Nat → List VfsResult → Option (Except Int Nat)
  | read, _, [] =>
    if count ≤ read then some (.ok read) else none
  | read, retry, .transient :: rest =>
    if count ≤ read then some (.ok read)
    else scfs_lower_read_loop max_retry count read retry rest
  | read, _, .fail e :: _ =>
    if count ≤ read then some (.ok read) else some (.error e)
  | read, retry, .ok n :: rest =>
    if count ≤ read then some (.ok read)
    else if max_retry < retry + 1 then some (.error EIOERR)
    else scfs_lower_read_loop max_retry count (read + n) (retry + 1) rest

/-- `scfs_lower_read` (scfs.c lines 1136-1187): starts with `read = 0`,
`retry = 0`. -/
def scfs_lower_read (max_retry count : Nat) (results : List VfsResult) :
    Option (Except Int Nat) :=
  scfs_lower_read_loop max_retry count 0 0 results

/-- The retry loop of `scfs_lower_write` (scfs.c lines 1196-1217); the code
is structurally identical to the read loop. -/
def scfs_lower_write_loop (max_retry count : Nat) :
    Nat → Nat → List VfsResult → Option (Except Int Nat)
  | written, _, [] =>
    if count ≤ written then some (.ok written) else none
  | written, retry, .transient :: rest =>
    if count ≤ written then some (.ok written)
    else scfs_lower_write_loop max_retry count written retry rest
  | written, _, .fail e :: _ =>
    if count ≤ written then some (.ok written) else some (.error e)
  | written, retry, .ok n :: rest =>
    if count ≤ written then some (.ok written)
    else if max_retry < retry + 1 then some (.error EIOERR)
    else scfs_lower_write_loop max_retry count (written + n) (retry + 1) rest

/-- `scfs_lower_write` (scfs.c lines 1189-1219). -/
def scfs_lower_write (max_retry count : Nat) (results : List VfsResult) :
    Option (Except Int Nat) :=
  scfs_lower_write_loop max_retry count 0 0 results

/-- The write loop is literally the same code as the read loop. -/
theorem scfs_lower_write_loop_eq_read (max_retry count : Nat) :
    ∀ (results : List VfsResult) (written retry : Nat),
      scfs_lower_write_loop max_retry count written retry results =
        scfs_lower_read_loop max_retry count written retry results := by
  intro results
  induction results with
  | nil => intro written retry; rfl
  | cons head rest ih =>
    intro written retry
    cases head with
    | ok n => simp [scfs_lower_write_loop, scfs_lower_read_loop, ih]
    | transient => simp [scfs_lower_write_loop, scfs_lower_read_loop, ih]
    | fail e => simp [scfs_lower_write_loop, scfs_lower_read_loop]

/-- Once the requested count is reached, the loop exits with the progress
counter no matter what the oracle still holds. -/
theorem scfs_lower_read_loop_exit (max_retry count read retry : Nat)
    (results : List VfsResult) (h : count ≤ read) :
    scfs_lower_read_loop max_retry count read retry results = some (.ok read) := by
  cases results with
  | nil => simp [scfs_lower_read_loop, h]
  | cons head rest => cases head <;> simp [scfs_lower_read_loop, h]

/-- A transient (`-EINTR`/`-EAGAIN`) result is consumed without changing the
progress or the retry counter: the `continue` statement skips `++retry`. -/
theorem scfs_lower_read_loop_transient (max_retry count read retry : Nat)
    (rest : List VfsResult) :
    scfs_lower_read_loop max_retry count read retry (.transient :: rest) =
      scfs_lower_read_loop max_retry count read retry rest := by
  by_cases h : count ≤ read
  · rw [scfs_lower_read_loop_exit max_retry count read retry _ h,
      scfs_lower_read_loop_exit max_retry count read retry _ h]
  · simp [scfs_lower_read_loop, h]

/-- An all-transient oracle never terminates the loop: for every finite
number of transient results the loop is still running. -/
theorem scfs_lower_read_loop_all_transient (max_retry count read retry : Nat)
    (h : read < count) :
    ∀ n : Nat,
      scfs_lower_read_loop max_retry count read retry (List.replicate n .transient) =
        none := by
  intro n
  induction n with
  | zero => simp [scfs_lower_read_loop, Nat.not_le_of_lt h]
  | succ m ih => rw [List.replicate_succ, scfs_lower_read_loop_transient]; exact ih

/-- A successful result of the loop always carries at least the requested
count: the `while` condition is the only successful exit. -/
theorem scfs_lower_read_loop_ok_ge (max_retry count : Nat) :
    ∀ (results : List VfsResult) (read retry r : Nat),
      scfs_lower_read_loop max_retry count read retry results = some (.ok r) →
        count ≤ r := by
  intro results
  induction results with
  | nil =>
    intro read retry r h
    by_cases hc : count ≤ read
    · simp only [scfs_lower_read_loop, hc, if_true, Option.some.injEq,
        Except.ok.injEq] at h
      omega
    · simp [scfs_lower_read_loop, hc] at h
  | cons head rest ih =>
    intro read retry r h
    by_cases hc : count ≤ read
    · rw [scfs_lower_read_loop_exit max_retry count read retry _ hc] at h
      simp only [Option.some.injEq, Except.ok.injEq] at h
      omega
    · cases head with
      | transient =>
        rw [scfs_lower_read_loop_transient] at h
        exact ih read retry r h
      | fail e => simp [scfs_lower_read_loop, hc] at h
      | ok n =>
        simp only [scfs_lower_read_loop, hc, if_false] at h
        by_cases hr : max_retry < retry + 1
        · simp [hr] at h
        · rw [if_neg hr] at h
          exact ih (read + n) (retry + 1) r h

/-- C5 counterexample: with `SCFS_IO_MAX_RETRY = 3`, a request for 8 bytes
that sees six consecutive transient (`-EINTR`/`-EAGAIN`) results — twice the
ceiling — followed by a full transfer completes successfully in both
`scfs_lower_read` and `scfs_lower_write`; the claimed `-EIO` after the
ceiling never happens, because `continue` skips the `++retry` counter on the
transient path. -/
theorem scfs_lower_io_transient_cex :
    scfs_lower_read 3 8 (List.replicate 6 .transient ++ [.ok 8]) = some (.ok 8) ∧
    scfs_lower_write 3 8 (List.replicate 6 .transient ++ [.ok 8]) = some (.ok 8) ∧
    scfs_lower_read 3 8 (List.replicate 6 .transient ++ [.ok 8]) ≠
      some (.error EIOERR) := by
  refine ⟨rfl, rfl, ?_⟩
  intro h
  simp [scfs_lower_read, scfs_lower_read_loop, List.replicate, EIOERR] at h

/-- C5 (amended): `scfs_lower_read` and `scfs_lower_write` never return a
successful short count (a successful return is at least the requested
count); transient-interrupt results (`-EINTR`/`-EAGAIN`) are retried without
being counted against `SCFS_IO_MAX_RETRY`, so an unbroken sequence of
transient failures loops without bound (the loop is still running after any
finite number of them); the retry ceiling instead bounds the number of
successful `vfs_read`/`vfs_write` transfer iterations. -/
theorem scfs_lower_io_amended (max_retry count n read retry r : Nat)
    (results : List VfsResult) (hc : 0 < count) :
    (scfs_lower_read max_retry count results = some (.ok r) → count ≤ r) ∧
    (scfs_lower_write max_retry count results = some (.ok r) → count ≤ r) ∧
    (scfs_lower_read_loop max_retry count read retry (.transient :: results) =
      scfs_lower_read_loop max_retry count read retry results) ∧
    (scfs_lower_write_loop max_retry count read retry (.transient :: results) =
      scfs_lower_write_loop max_retry count read retry results) ∧
    scfs_lower_read max_retry count (List.replicate n .transient) = none ∧
    scfs_lower_write max_retry count (List.replicate n .transient) = none := by
  refine ⟨fun h => scfs_lower_read_loop_ok_ge max_retry count results 0 0 r h,
    fun h => ?_, scfs_lower_read_loop_transient max_retry count read retry results,
    ?_, scfs_lower_read_loop_all_transient max_retry count 0 0 hc n, ?_⟩
  · rw [scfs_lower_write, scfs_lower_write_loop_eq_read] at h
    exact scfs_lower_read_loop_ok_ge max_retry count results 0 0 r h
  · rw [scfs_lower_write_loop_eq_read, scfs_lower_write_loop_eq_read]
    exact scfs_lower_read_loop_transient max_retry count read retry results
  · rw [scfs_lower_write, scfs_lower_write_loop_eq_read]
    exact scfs_lower_read_loop_all_transient max_retry count 0 0 hc n

/-- C5 witness: the amended statement instantiated at ceiling 3, count 8,
two transient results, and the one-element oracle `[.ok 8]`. -/
theorem scfs_lower_io_amended_witness :
    (scfs_lower_read 3 8 [.ok 8] = some (.ok 8) → 8 ≤ 8) ∧
    (scfs_lower_write 3 8 [.ok 8] = some (.ok 8) → 8 ≤ 8) ∧
    (scfs_lower_read_loop 3 8 0 0 (.transient :: [.ok 8]) =
      scfs_lower_read_loop 3 8 0 0 [.ok 8]) ∧
    (scfs_lower_write_loop 3 8 0 0 (.transient :: [.ok 8]) =
      scfs_lower_write_loop 3 8 0 0 [.ok 8]) ∧
    scfs_lower_read 3 8 (List.replicate 2 .transient) = none ∧
    scfs_lower_write 3 8 (List.replicate 2 .transient) = none :=
  scfs_lower_io_amended 3 8 2 0 0 8 [.ok 8] (by decide)

/-! ## scfs_truncate (scfs.c lines 1077-1133)

Any nonzero target returns `-EINVAL` before touching anything.  Target 0:
`truncate_setsize(inode, 0)`, drain the pending `cinfo_list` under the list
mutex (no write of the entries anywhere), `notify_change` resizes the lower
file to 0 (error propagated), `scfs_initialize_file` re-creates the empty
state (error marks meta invalid and propagates), then the loaded
`cinfo_array` is freed, `cinfo_array_size`, `upper_file_size` and the staged
buffer byte count are zeroed, and the meta-invalid flag is cleared. -/

/-- Per-file state touched by `scfs_truncate`. -/
structure TruncFileState where
  upper_size : Nat
  cinfo_list : List Cinfo_entry
  cinfo_array : Option (List Scfs_cinfo)
  cinfo_array_size : Nat
  upper_file_size : Nat
  buffer_original_size : Nat
  meta_invalid : Bool
  lower_size : Nat
deriving DecidableEq

/-- `scfs_truncate` (scfs.c lines 1077-1133).  `notify_ret` is the result of
`notify_change` on the lower dentry and `init_ret` the result of
`scfs_initialize_file` (defined outside this translation unit). -/
def scfs_truncate (st : TruncFileState) (size : Nat) (notify_ret init_ret : Int) :
    Int × TruncFileState :=
  if size ≠ 0 then (EINVAL, st)
  else
    let st1 := { st with upper_size := 0, cinfo_list := [] }
    if notify_ret ≠ 0 then (notify_ret, st1)
    else
      let st2 := { st1 with lower_size := 0 }
      if init_ret ≠ 0 then (init_ret, { st2 with meta_invalid := true })
      else
        (0, { st2 with
              cinfo_array := none
              cinfo_array_size := 0
              upper_file_size := 0
              buffer_original_size := 0
              meta_invalid := false })

/-- C6: a nonzero truncate target returns `-EINVAL` with the state untouched;
truncating to zero (with the lower resize and the re-initialization
succeeding) discards the entire pending list without persisting it, resizes
the lower file to 0, frees `cinfo_array` and zeroes its size, zeroes the
logical size and the staged buffer byte count, and clears the meta-invalid
flag. -/
theorem scfs_truncate_correct (st : TruncFileState) (size : Nat)
    (notify_ret init_ret : Int) (hs : size ≠ 0) :
    scfs_truncate st size notify_ret init_ret = (EINVAL, st) ∧
    scfs_truncate st 0 0 0 = (0, ⟨0, [], none, 0, 0, 0, false, 0⟩) := by
  constructor
  · simp [scfs_truncate, hs]
  · simp [scfs_truncate]

/-- C6 witness: truncating a populated file state to 7 is rejected with the
state intact, and truncating it to 0 resets every component. -/
theorem scfs_truncate_correct_witness :
    scfs_truncate ⟨10000, [⟨2, ⟨8192, 1808⟩⟩], some [⟨0, 900⟩], 16, 10000, 1808, true, 9000⟩
      7 0 0 =
      (EINVAL, ⟨10000, [⟨2, ⟨8192, 1808⟩⟩], some [⟨0, 900⟩], 16, 10000, 1808, true, 9000⟩) ∧
    scfs_truncate ⟨10000, [⟨2, ⟨8192, 1808⟩⟩], some [⟨0, 900⟩], 16, 10000, 1808, true, 9000⟩
      0 0 0 = (0, ⟨0, [], none, 0, 0, 0, false, 0⟩) :=
  scfs_truncate_correct ⟨10000, [⟨2, ⟨8192, 1808⟩⟩], some [⟨0, 900⟩], 16, 10000, 1808, true, 9000⟩
    7 0 0 (by decide)

/-! ## scfs_check_space (scfs.c lines 701-721)

The worst-case estimate is `total_cluster_count * sizeof(struct scfs_cinfo)
+ current_file_count * sizeof(struct comp_footer) + current_data_size +
PAGE_SIZE`.  The availability the code compares against it is
`buf.f_bavail * PAGE_SIZE` — the page size, not the lower filesystem's
block size returned by statfs.  A statfs failure is propagated; the function
performs no write to the lower file (its only collaborator call is the
read-only statfs). -/

/-- The two `struct kstatfs` fields relevant here.  `f_bavail` counts free
blocks in units of the filesystem block size `f_bsize`. -/
structure Kstatfs where
  f_bavail : Nat
  f_bsize : Nat
deriving DecidableEq

/-- Kernel `PAGE_SIZE` on this platform (ARM, 4 KiB pages). -/
def PAGE_SIZE : Nat := 4096

/-- `scfs_check_space` (scfs.c lines 701-721).  `sizeof_cinfo` and
`sizeof_footer` stand for `sizeof(struct scfs_cinfo)` and
`sizeof(struct comp_footer)` from the header, which is not part of the
provided source; every statement below holds for any value. -/
def scfs_check_space (sizeof_cinfo sizeof_footer : Nat)
    (total_cluster_count current_file_count current_data_size : Nat)
    (statfs_result : Except Int Kstatfs) : Int :=
  let min_space := total_cluster_count * sizeof_cinfo +
    current_file_count * sizeof_footer + current_data_size + PAGE_SIZE
  match statfs_result with
  | .error e => e
  | .ok buf => if buf.f_bavail * PAGE_SIZE < min_space then ENOSPC else 0

/-- C7 counterexample: with an empty system (estimate = `PAGE_SIZE` = 4096
bytes) and a lower filesystem reporting 1 free block of block size 1024, the
available space `1 * 1024 = 1024` bytes is below the estimate, yet the code
admits the write (returns 0, not `-ENOSPC`), because it multiplies
`f_bavail` by `PAGE_SIZE` instead of the statfs block size. -/
theorem scfs_check_space_blocksize_cex :
    scfs_check_space 8 24 0 0 0 (.ok ⟨1, 1024⟩) = 0 ∧
    1 * 1024 < 0 * 8 + 0 * 24 + 0 + PAGE_SIZE ∧
    (0 : Int) ≠ ENOSPC := by
  refine ⟨rfl, by decide, by decide⟩

/-- C7 (amended): the estimate is exactly
`total_cluster_count * sizeof(ClusterDescriptor) + current_file_count *
sizeof(Footer) + buffered data bytes + one page of slack`, and the check
returns `-ENOSPC` precisely when the free-block count *times the page size*
(not the statfs block size) is below that estimate; otherwise it returns 0,
and a statfs error is propagated as is. -/
theorem scfs_check_space_amended (sizeof_cinfo sizeof_footer tcc fc ds : Nat)
    (buf : Kstatfs) (e : Int) :
    (scfs_check_space sizeof_cinfo sizeof_footer tcc fc ds (.ok buf) = ENOSPC ↔
      buf.f_bavail * PAGE_SIZE <
        tcc * sizeof_cinfo + fc * sizeof_footer + ds + PAGE_SIZE) ∧
    (¬ buf.f_bavail * PAGE_SIZE <
        tcc * sizeof_cinfo + fc * sizeof_footer + ds + PAGE_SIZE →
      scfs_check_space sizeof_cinfo sizeof_footer tcc fc ds (.ok buf) = 0) ∧
    scfs_check_space sizeof_cinfo sizeof_footer tcc fc ds (.error e) = e := by
  by_cases h : buf.f_bavail * PAGE_SIZE <
      tcc * sizeof_cinfo + fc * sizeof_footer + ds + PAGE_SIZE
  · refine ⟨?_, fun hn => absurd h hn, rfl⟩
    simp [scfs_check_space, h]
  · refine ⟨?_, fun _ => by simp [scfs_check_space, h], rfl⟩
    simp only [scfs_check_space, if_neg h]
    constructor
    · intro h0
      exact absurd h0.symm (by decide)
    · intro hlt
      exact absurd hlt h

/-! ## Lower-file session (scfs.c lines 348-387)

`scfs_get_lower_file` increments the refcount under `lower_file_mutex`; on
the 0→1 transition it opens the lower handle, and an open failure resets the
count to 0 (with `scfs_initialize_lower_file` having cleared the cached
handle) and returns the error.  `scfs_put_lower_file` decrements; on the
transition to 0 it flushes dirty pages, runs `scfs_write_meta`, then `fput`s
and clears the handle — the commit's return value only feeds a log line. -/

/-- Refcount plus cached lower handle of one inode's session. -/
structure SessionState where
  refcount : Nat
  handle : Option Nat
deriving DecidableEq

/-- Side effects `scfs_put_lower_file` performs on the last release, in
program order. -/
inductive PutAction
  | flushData
  | writeMeta
  | closeFile
deriving DecidableEq

/-- `scfs_get_lower_file` (scfs.c lines 348-366): returns the new state and
the return value.  `open_result` is the outcome of
`scfs_initialize_lower_file`; the `WARN_ON_ONCE(count < 1)` branch cannot
fire here since the incremented count is at least 1. -/
def scfs_get_lower_file (st : SessionState) (open_result : Except Int Nat) :
    SessionState × Int :=
  let count := st.refcount + 1
  if count = 1 then
    match open_result with
    | .ok h => (⟨1, some h⟩, 0)
    | .error e => (⟨0, none⟩, e)
  else (⟨count, st.handle⟩, 0)

/-- `scfs_put_lower_file` (scfs.c lines 368-387): on the 1→0 transition it
performs the flush / meta-commit / close sequence and clears the handle;
`commit_ret` (the `scfs_write_meta` result) is only logged and never alters
the control flow. -/
def scfs_put_lower_file (st : SessionState) (_commit_ret : Int) :
    SessionState × List PutAction :=
  if st.refcount = 1 then
    (⟨0, none⟩, [.flushData, .writeMeta, .closeFile])
  else (⟨st.refcount - 1, st.handle⟩, [])

/-- C8: releasing the last reference performs, in order, the dirty-data
flush, the footer commit (`scfs_write_meta`), and the close, clearing the
cached handle — for every commit result, including errors; acquiring on the
0→1 transition with a failing open resets the refcount to 0, leaves no
cached handle, and propagates the open error. -/
theorem scfs_lower_file_session_correct (st st2 : SessionState) (commit_ret e : Int)
    (h1 : st.refcount = 1) (h2 : st2.refcount = 0) :
    scfs_put_lower_file st commit_ret =
      (⟨0, none⟩, [.flushData, .writeMeta, .closeFile]) ∧
    scfs_get_lower_file st2 (.error e) = (⟨0, none⟩, e) := by
  constructor
  · simp [scfs_put_lower_file, h1]
  · simp [scfs_get_lower_file, h2]

/-- C8 witness: a single-reference session with a failing commit (`-EIO`)
still flushes, commits, closes and clears; a fresh session whose lower open
fails with `-ENOMEM` ends with refcount 0 and that error. -/
theorem scfs_lower_file_session_correct_witness :
    scfs_put_lower_file ⟨1, some 42⟩ EIOERR =
      (⟨0, none⟩, [.flushData, .writeMeta, .closeFile]) ∧
    scfs_get_lower_file ⟨0, none⟩ (.error ENOMEM) = (⟨0, none⟩, ENOMEM) :=
  scfs_lower_file_session_correct ⟨1, some 42⟩ ⟨0, none⟩ EIOERR ENOMEM rfl rfl

/-! ## scfs_read_cluster: raw-vs-compressed decision (scfs.c lines 407-485)

For a compressible file, after the in-range check (`-ERANGE` past the last
cluster), the resolved descriptor is validated (`size == 0` or
`size > cluster_size` → `-EINVAL`, before the lower file is even looked up);
then `*compressed` is 0 when `size == cluster_size`, or when the cluster is
the last one and `size` equals `i_size % cluster_size` (the `do_div`
remainder `left`), and 1 otherwise.  The lower read happens only after this
decision, using `size = cinfo.size` at `pos = cinfo.offset`. -/

/-- Last cluster index as computed at scfs.c lines 434-438: `tmp = i_size;
left = do_div(tmp, cluster_size); if (left) tmp++; last = tmp - 1`. -/
def last_cluster_of (i_size cluster_size : Nat) : Nat :=
  (if i_size % cluster_size ≠ 0 then i_size / cluster_size + 1
   else i_size / cluster_size) - 1

/-- The compressible-file read plan of `scfs_read_cluster` (scfs.c
lines 441-485): either an error, or `(compressed flag, read size, read
position)` for the subsequent `scfs_lower_read`.  `cinfo` is the descriptor
returned by `get_cluster_info`. -/
def scfs_read_cluster_plan (i_size cluster_size cluster_idx : Nat)
    (cinfo : Scfs_cinfo) : Except Int (Bool × Nat × Nat) :=
  if last_cluster_of i_size cluster_size < cluster_idx then .error ERANGE
  else if cinfo.size = 0 ∨ cluster_size < cinfo.size then .error EINVAL
  else if cinfo.size = cluster_size then .ok (false, cinfo.size, cinfo.offset)
  else if cluster_idx = last_cluster_of i_size cluster_size ∧
      i_size % cluster_size = cinfo.size then
    .ok (false, cinfo.size, cinfo.offset)
  else .ok (true, cinfo.size, cinfo.offset)

/-- C9: for an in-range cluster of a compressible file, a descriptor size of
0 or above the cluster size is rejected with `-EINVAL` before any lower
read; a size equal to the nominal cluster size is read raw (no
decompression); the last cluster is also read raw when its size equals the
file size modulo the cluster size; every other in-range size is routed
through decompression. -/
theorem scfs_read_cluster_raw_decision (i_size cluster_size cluster_idx : Nat)
    (cinfo : Scfs_cinfo) (hcs : 0 < cluster_size)
    (hrange : cluster_idx ≤ last_cluster_of i_size cluster_size) :
    ((cinfo.size = 0 ∨ cluster_size < cinfo.size) →
      scfs_read_cluster_plan i_size cluster_size cluster_idx cinfo = .error EINVAL) ∧
    (cinfo.size = cluster_size →
      scfs_read_cluster_plan i_size cluster_size cluster_idx cinfo =
        .ok (false, cinfo.size, cinfo.offset)) ∧
    (cluster_idx = last_cluster_of i_size cluster_size →
      i_size % cluster_size = cinfo.size → 0 < cinfo.size →
      cinfo.size < cluster_size →
      scfs_read_cluster_plan i_size cluster_size cluster_idx cinfo =
        .ok (false, cinfo.size, cinfo.offset)) ∧
    (0 < cinfo.size → cinfo.size < cluster_size →
      ¬ (cluster_idx = last_cluster_of i_size cluster_size ∧
        i_size % cluster_size = cinfo.size) →
      scfs_read_cluster_plan i_size cluster_size cluster_idx cinfo =
        .ok (true, cinfo.size, cinfo.offset)) := by
  have hnr : ¬ last_cluster_of i_size cluster_size < cluster_idx :=
    Nat.not_lt.mpr hrange
  refine ⟨fun h => ?_, fun h => ?_, fun h1 h2 h3 h4 => ?_, fun h1 h2 h3 => ?_⟩
  · unfold scfs_read_cluster_plan
    rw [if_neg hnr, if_pos h]
  · unfold scfs_read_cluster_plan
    rw [if_neg hnr, if_neg (by omega), if_pos h]
  · unfold scfs_read_cluster_plan
    rw [if_neg hnr, if_neg (by omega), if_neg (by omega), if_pos ⟨h1, h2⟩]
  · unfold scfs_read_cluster_plan
    rw [if_neg hnr, if_neg (by omega), if_neg (by omega), if_neg h3]

/-- C9 witness: file of 10000 bytes, 4096-byte clusters (last cluster index
2, remainder 1808): the last cluster's descriptor of size 1808 at offset
8192 is read raw. -/
theorem scfs_read_cluster_raw_decision_witness :
    scfs_read_cluster_plan 10000 4096 2 ⟨8192, 1808⟩ = .ok (false, 1808, 8192) :=
  (scfs_read_cluster_raw_decision 10000 4096 2 ⟨8192, 1808⟩ (by decide)
    (by decide)).2.2.1 (by decide) (by decide) (by decide) (by decide)

end Scfs
